import Mathlib

/- Verification development for the ADX runbook CLI (runbook/adx_runbook.py).
   The embedding covers the retry executor, the schema sequencer over
   SCHEMA_COMMANDS, format and mapping resolution for local files and blob
   URIs, ingestion property construction, and the verify report. -/

/-- Python exception model: a KustoServiceError carrying its message, or an
exception of any other type (carrying the type name and the message). -/
inductive PyError : Type
  | kusto (msg : String)
  | other (name msg : String)
deriving DecidableEq

/-- Lowercasing of a character list, modelling str.lower on the ASCII error
messages the runbook matches on. -/
def lowerL (l : List Char) : List Char := l.map Char.toLower

/-- Does the second list start with the first one. -/
def startsL : List Char → List Char → Bool
  | [], _ => true
  | _ :: _, [] => false
  | a :: as, b :: bs => a == b && startsL as bs

/-- Substring containment on character lists, modelling the Python in
operator on strings. -/
def containsSub (pat : List Char) : List Char → Bool
  | [] => decide (pat = [])
  | c :: rest => startsL pat (c :: rest) || containsSub pat rest

/-- Does the list l end with pat. -/
def endsWithL (pat l : List Char) : Bool := startsL pat.reverse l.reverse

/-- Retry bound from the source: _MAX_RETRIES = 3. -/
def _MAX_RETRIES : Nat := 3

/-- Fixed delay from the source: _RETRY_DELAY_SECONDS = 5. -/
def _RETRY_DELAY_SECONDS : Nat := 5

/-- Transient classification from _execute_with_retry: the lowered message
contains "failed to process network request" or "auth/metadata". -/
def isTransientMsg (msg : String) : Bool :=
  containsSub "failed to process network request".data (lowerL msg.data)
    || containsSub "auth/metadata".data (lowerL msg.data)

/-- Observable outcome of one call to _execute_with_retry: the returned
value or raised exception, the number of attempts made, and the list of
sleep durations performed between attempts. -/
structure RetryResult (α : Type) where
  result : Except PyError α
  attempts : Nat
  sleeps : List Nat

/-- Loop body of _execute_with_retry. The oracle exec gives the outcome of
client.execute_mgmt(database, command) on each attempt number; a is the
current attempt, fuel is the number of loop iterations left (retries - a + 1
at every call). When the fuel is exhausted without the loop body running the
source reaches raise last_exc with last_exc = None, which in Python raises a
TypeError. -/
def retryFrom {α : Type} (exec : Nat → Except PyError α) (retries : Nat) :
    Nat → Nat → RetryResult α
  | _a, 0 =>
      ⟨.error (.other "TypeError" "exceptions must derive from BaseException"), 0, []⟩
  | a, fuel + 1 =>
      match exec a with
      | .ok v => ⟨.ok v, 1, []⟩
      | .error (.kusto msg) =>
          if isTransientMsg msg then
            if a < retries then
              let r := retryFrom exec retries (a + 1) fuel
              ⟨r.result, r.attempts + 1, _RETRY_DELAY_SECONDS :: r.sleeps⟩
            else ⟨.error (.kusto msg), 1, []⟩
          else ⟨.error (.kusto msg), 1, []⟩
      | .error e => ⟨.error e, 1, []⟩

/-- _execute_with_retry(client, database, command, retries): attempts run
from 1 to retries. The oracle exec abstracts the outcome of
client.execute_mgmt(database, command) at each attempt number. -/
def _execute_with_retry {α : Type} (exec : Nat → Except PyError α)
    (retries : Nat) : RetryResult α :=
  retryFrom exec retries 1 retries

/-- Claim C1: for service errors whose message matches a transient substring
(case-insensitively), _execute_with_retry makes 3 total attempts with a
5-second sleep between attempts and none after the last, re-raising the
final transient error; a success stops the attempts early; for a service
error matching neither substring it re-raises immediately after the first
attempt with no sleeps. -/
theorem execute_with_retry_spec {α : Type} (msgs : Nat → String) (m : String)
    (v : α)
    (hT : ∀ n, isTransientMsg (msgs n) = true)
    (hF : isTransientMsg m = false) :
    (_execute_with_retry
        (fun n => (.error (.kusto (msgs n)) : Except PyError α)) _MAX_RETRIES
        = ⟨.error (.kusto (msgs 3)), 3,
            [_RETRY_DELAY_SECONDS, _RETRY_DELAY_SECONDS]⟩)
      ∧ (_execute_with_retry (fun n => if 2 ≤ n then .ok v
            else .error (.kusto (msgs n))) _MAX_RETRIES
          = ⟨.ok v, 2, [_RETRY_DELAY_SECONDS]⟩)
      ∧ (_execute_with_retry
          (fun _ => (.error (.kusto m) : Except PyError α)) _MAX_RETRIES
          = ⟨.error (.kusto m), 1, []⟩) := by
  refine ⟨?_, ?_, ?_⟩
  · simp [_execute_with_retry, _MAX_RETRIES, retryFrom, hT 1, hT 2, hT 3]
  · simp [_execute_with_retry, _MAX_RETRIES, retryFrom, hT 1]
  · simp [_execute_with_retry, _MAX_RETRIES, retryFrom, hF]

/-- Witness for C1 at concrete inputs: a transient message and a fatal one. -/
theorem execute_with_retry_spec_witness :
    (_execute_with_retry
        (fun _n => (.error (.kusto "failed to process network request") :
          Except PyError Nat)) _MAX_RETRIES
        = ⟨.error (.kusto "failed to process network request"), 3,
            [_RETRY_DELAY_SECONDS, _RETRY_DELAY_SECONDS]⟩)
      ∧ (_execute_with_retry (fun n => if 2 ≤ n then .ok 7
            else .error (.kusto "failed to process network request"))
            _MAX_RETRIES
          = ⟨.ok 7, 2, [_RETRY_DELAY_SECONDS]⟩)
      ∧ (_execute_with_retry
            (fun _ => (.error (.kusto "Entity already exists") :
              Except PyError Nat)) _MAX_RETRIES
          = ⟨.error (.kusto "Entity already exists"), 1, []⟩) :=
  execute_with_retry_spec (fun _ => "failed to process network request")
    "Entity already exists" 7 (fun _ => rfl) rfl

/-- SCHEMA_COMMANDS from the source: the ordered list of
(description, statement) pairs executed by cmd_setup. Apostrophes are
written as the escape x27 and curly braces as x7b / x7d. -/
def SCHEMA_COMMANDS : List (String × String) := [
  ("Create target table (FileTransferEvents)",
   ".create-merge table FileTransferEvents (\n    Filename: string,\n    SourcePresent: bool,\n    TargetPresent: bool,\n    SourceLastModifiedUtc: datetime,\n    TargetLastModifiedUtc: datetime,\n    AgeMinutes: real,\n    Status: string,\n    Notes: string,\n    Timestamp: datetime\n)"),
  ("Create staging table (FileTransferEvents_Raw)",
   ".create-merge table FileTransferEvents_Raw (\n    Filename: string,\n    SourcePresent: bool,\n    TargetPresent: bool,\n    SourceLastModifiedUtc: datetime,\n    TargetLastModifiedUtc: datetime,\n    AgeMinutes: real,\n    Status: string,\n    Notes: string\n)"),
  ("Create dead-letter table (FileTransferEvents_Errors)",
   ".create-merge table FileTransferEvents_Errors (\n    RawData: string,\n    Database: string,\n    [\x27Table\x27]: string,\n    FailedOn: datetime,\n    Error: string,\n    OperationId: guid\n)"),
  ("Create transformation function",
   ".create-or-alter function FileTransferEvents_Transform() \x7b\n    FileTransferEvents_Raw\n    | extend Timestamp = coalesce(SourceLastModifiedUtc, ingestion_time())\n    | project Filename, SourcePresent, TargetPresent,\n              SourceLastModifiedUtc, TargetLastModifiedUtc,\n              AgeMinutes, Status, Notes, Timestamp\n\x7d"),
  ("Attach update policy",
   ".alter table FileTransferEvents policy update\n@\x27[\x7b\"IsEnabled\": true, \"Source\": \"FileTransferEvents_Raw\", \"Query\": \"FileTransferEvents_Transform()\", \"IsTransactional\": true, \"PropagateIngestionProperties\": true\x7d]\x27"),
  ("Create CSV ingestion mapping",
   ".create-or-alter table FileTransferEvents_Raw ingestion csv mapping \x27FileTransferEvents_CsvMapping\x27 \x27[\x7b\"Name\":\"Filename\",\"DataType\":\"string\",\"Ordinal\":0\x7d,\x7b\"Name\":\"SourcePresent\",\"DataType\":\"bool\",\"Ordinal\":1\x7d,\x7b\"Name\":\"TargetPresent\",\"DataType\":\"bool\",\"Ordinal\":2\x7d,\x7b\"Name\":\"SourceLastModifiedUtc\",\"DataType\":\"datetime\",\"Ordinal\":3\x7d,\x7b\"Name\":\"TargetLastModifiedUtc\",\"DataType\":\"datetime\",\"Ordinal\":4\x7d,\x7b\"Name\":\"AgeMinutes\",\"DataType\":\"real\",\"Ordinal\":5\x7d,\x7b\"Name\":\"Status\",\"DataType\":\"string\",\"Ordinal\":6\x7d,\x7b\"Name\":\"Notes\",\"DataType\":\"string\",\"Ordinal\":7\x7d]\x27"),
  ("Create JSON ingestion mapping",
   ".create-or-alter table FileTransferEvents_Raw ingestion json mapping \x27FileTransferEvents_JsonMapping\x27 \x27[\x7b\"column\":\"Filename\",\"path\":\"$.Filename\",\"datatype\":\"string\"\x7d,\x7b\"column\":\"SourcePresent\",\"path\":\"$.SourcePresent\",\"datatype\":\"bool\"\x7d,\x7b\"column\":\"TargetPresent\",\"path\":\"$.TargetPresent\",\"datatype\":\"bool\"\x7d,\x7b\"column\":\"SourceLastModifiedUtc\",\"path\":\"$.SourceLastModifiedUtc\",\"datatype\":\"datetime\"\x7d,\x7b\"column\":\"TargetLastModifiedUtc\",\"path\":\"$.TargetLastModifiedUtc\",\"datatype\":\"datetime\"\x7d,\x7b\"column\":\"AgeMinutes\",\"path\":\"$.AgeMinutes\",\"datatype\":\"real\"\x7d,\x7b\"column\":\"Status\",\"path\":\"$.Status\",\"datatype\":\"string\"\x7d,\x7b\"column\":\"Notes\",\"path\":\"$.Notes\",\"datatype\":\"string\"\x7d]\x27"),
  ("Set target table retention (90 days)",
   ".alter table FileTransferEvents policy retention\n@\x27\x7b\"SoftDeletePeriod\": \"90.00:00:00\", \"Recoverability\": \"Enabled\"\x7d\x27"),
  ("Set staging table retention (1 day)",
   ".alter table FileTransferEvents_Raw policy retention\n@\x27\x7b\"SoftDeletePeriod\": \"1.00:00:00\", \"Recoverability\": \"Disabled\"\x7d\x27"),
  ("Set dead-letter table retention (30 days)",
   ".alter table FileTransferEvents_Errors policy retention\n@\x27\x7b\"SoftDeletePeriod\": \"30.00:00:00\", \"Recoverability\": \"Disabled\"\x7d\x27"),
  ("Set ingestion batching policy (1 min)",
   ".alter table FileTransferEvents_Raw policy ingestionbatching\n@\x27\x7b\"MaximumBatchingTimeSpan\": \"00:01:00\", \"MaximumNumberOfItems\": 20, \"MaximumRawDataSizeMB\": 256\x7d\x27"),
  ("Create DailySummary materialized view",
   ".create ifnotexists materialized-view DailySummary on table FileTransferEvents \x7b\n    FileTransferEvents\n    | summarize\n        TotalCount      = count(),\n        OkCount         = countif(Status == \"OK\"),\n        MissingCount    = countif(Status == \"MISSING\"),\n        DelayedCount    = countif(Status == \"DELAYED\"),\n        AvgAgeMinutes   = avg(AgeMinutes),\n        AgeDigest       = tdigest(AgeMinutes)\n    by Date = startofday(Timestamp)\n\x7d"),
  ("Set DailySummary retention (730 days)",
   ".alter materialized-view DailySummary policy retention\n@\x27\x7b\"SoftDeletePeriod\": \"730.00:00:00\", \"Recoverability\": \"Enabled\"\x7d\x27")
]

/-- VERIFY_QUERY from the source (trailing newline as in the triple-quoted
literal). -/
def VERIFY_QUERY : String :=
  "FileTransferEvents\n| order by Timestamp desc\n| take 20\n| project Filename, SourcePresent, TargetPresent,\n          SourceLastModifiedUtc, TargetLastModifiedUtc,\n          AgeMinutes, Status, Notes, Timestamp\n"

/-- The already-exists classification in cmd_setup: the lowered message of a
KustoServiceError contains "already exists". -/
def alreadyExistsMsg (msg : String) : Bool :=
  containsSub "already exists".data (lowerL msg.data)

/-- How a non-failing step is reported by cmd_setup: OK or
SKIPPED (already exists). -/
inductive StepOutcome : Type
  | ok
  | skipped
deriving DecidableEq

/-- Observable outcome of one cmd_setup run: which step indices were
submitted to the executor (in order), the per-step reports printed for the
steps that completed, and the exception propagated to the caller, if any. -/
structure SetupResult : Type where
  attempted : List Nat
  reports : List (Nat × StepOutcome)
  error : Option PyError

/-- The final result of _execute_with_retry for step i, where the oracle
exec gives the outcome of client.execute_mgmt for each (step, attempt)
pair. -/
def stepResult (exec : Nat → Nat → Except PyError Unit) (i : Nat) :
    Except PyError Unit :=
  (_execute_with_retry (exec i) _MAX_RETRIES).result

/-- Is the step result a success. -/
def stepOkB : Except PyError Unit → Bool
  | .ok _ => true
  | .error _ => false

/-- Is the step result a KustoServiceError whose message matches the
already-exists classification (and is therefore skipped). -/
def stepSkipB : Except PyError Unit → Bool
  | .error (.kusto msg) => alreadyExistsMsg msg
  | _ => false

/-- Is the step result fatal for cmd_setup: neither a success nor a skipped
already-exists KustoServiceError. -/
def stepFatalB (r : Except PyError Unit) : Bool := !stepOkB r && !stepSkipB r

/-- The exception carried by a step result, if any. -/
def errOf : Except PyError Unit → Option PyError
  | .ok _ => none
  | .error e => some e

/-- The loop of cmd_setup over the remaining schema steps, starting at
step index i (1-based). A success prints OK; a KustoServiceError whose
message contains "already exists" prints SKIPPED and continues; any other
exception stops the loop and propagates. -/
def cmd_setup_from (exec : Nat → Nat → Except PyError Unit) :
    Nat → List (String × String) → SetupResult
  | _, [] => ⟨[], [], none⟩
  | i, _ :: rest =>
      match stepResult exec i with
      | .ok _ =>
          let s := cmd_setup_from exec (i + 1) rest
          ⟨i :: s.attempted, (i, StepOutcome.ok) :: s.reports, s.error⟩
      | .error (.kusto msg) =>
          if alreadyExistsMsg msg then
            let s := cmd_setup_from exec (i + 1) rest
            ⟨i :: s.attempted, (i, StepOutcome.skipped) :: s.reports, s.error⟩
          else ⟨[i], [], some (.kusto msg)⟩
      | .error e => ⟨[i], [], some e⟩

/-- cmd_setup: drive every entry of SCHEMA_COMMANDS, in declaration order,
through _execute_with_retry. -/
def cmd_setup (exec : Nat → Nat → Except PyError Unit) : SetupResult :=
  cmd_setup_from exec 1 SCHEMA_COMMANDS

/-- Helper: a run of cmd_setup_from over steps none of which is fatal runs
every step, reporting OK or SKIPPED for each, and propagates no error. -/
theorem cmd_setup_from_nonfatal (exec : Nat → Nat → Except PyError Unit) :
    ∀ (steps : List (String × String)) (i : Nat),
      (∀ j, i ≤ j → j < i + steps.length → stepFatalB (stepResult exec j) = false) →
      cmd_setup_from exec i steps =
        ⟨List.range' i steps.length,
         (List.range' i steps.length).map
           (fun j => (j, if stepSkipB (stepResult exec j)
              then StepOutcome.skipped else StepOutcome.ok)),
         none⟩
  | [], i, _h => by simp [cmd_setup_from, List.range']
  | (d, c) :: rest, i, h => by
      have hi : stepFatalB (stepResult exec i) = false := by
        refine h i (Nat.le_refl i) ?_
        simp only [List.length_cons]
        omega
      have hrest : ∀ j, i + 1 ≤ j → j < (i + 1) + rest.length →
          stepFatalB (stepResult exec j) = false := by
        intro j h1 h2
        refine h j (by omega) ?_
        simp only [List.length_cons]
        omega
      have ih := cmd_setup_from_nonfatal exec rest (i + 1) hrest
      cases hr : stepResult exec i with
      | ok v =>
          simp [cmd_setup_from, hr, ih, List.length_cons, List.range'_succ,
            stepSkipB]
      | error e =>
          cases e with
          | kusto msg =>
              have hae : alreadyExistsMsg msg = true := by
                rw [hr] at hi
                simpa [stepFatalB, stepOkB, stepSkipB] using hi
              simp [cmd_setup_from, hr, hae, ih, List.length_cons,
                List.range'_succ, stepSkipB]
          | other n m =>
              exfalso
              rw [hr] at hi
              simp [stepFatalB, stepOkB, stepSkipB] at hi

/-- Helper: if the first fatal step is at offset k within the remaining
steps, cmd_setup_from submits exactly the steps up to and including it,
reports the earlier ones, and propagates the exception of the fatal step. -/
theorem cmd_setup_from_fatal (exec : Nat → Nat → Except PyError Unit) :
    ∀ (steps : List (String × String)) (k i : Nat),
      k < steps.length →
      (∀ j, i ≤ j → j < i + k → stepFatalB (stepResult exec j) = false) →
      stepFatalB (stepResult exec (i + k)) = true →
      cmd_setup_from exec i steps =
        ⟨List.range' i (k + 1),
         (List.range' i k).map
           (fun j => (j, if stepSkipB (stepResult exec j)
              then StepOutcome.skipped else StepOutcome.ok)),
         errOf (stepResult exec (i + k))⟩
  | [], k, i, hk, _hpre, _hfat => by simp at hk
  | (d, c) :: rest, 0, i, hk, _hpre, hfat => by
      cases hr : stepResult exec i with
      | ok v =>
          exfalso
          rw [Nat.add_zero, hr] at hfat
          simp [stepFatalB, stepOkB] at hfat
      | error e =>
          cases e with
          | kusto msg =>
              have hae : alreadyExistsMsg msg = false := by
                rw [Nat.add_zero, hr] at hfat
                simpa [stepFatalB, stepOkB, stepSkipB] using hfat
              simp [cmd_setup_from, hr, hae, List.range', Nat.add_zero, errOf]
          | other n m =>
              simp [cmd_setup_from, hr, List.range', Nat.add_zero, errOf]
  | (d, c) :: rest, k + 1, i, hk, hpre, hfat => by
      have hi : stepFatalB (stepResult exec i) = false := by
        refine hpre i (Nat.le_refl i) ?_
        omega
      have hfat' : stepFatalB (stepResult exec ((i + 1) + k)) = true := by
        have : (i + 1) + k = i + (k + 1) := by omega
        rw [this]; exact hfat
      have hpre' : ∀ j, i + 1 ≤ j → j < (i + 1) + k →
          stepFatalB (stepResult exec j) = false := by
        intro j h1 h2
        exact hpre j (by omega) (by omega)
      have hk' : k < rest.length := by
        simp only [List.length_cons] at hk
        omega
      have ih := cmd_setup_from_fatal exec rest k (i + 1) hk' hpre' hfat'
      have hidx : (i + 1) + k = i + (k + 1) := by omega
      cases hr : stepResult exec i with
      | ok v =>
          simp [cmd_setup_from, hr, ih, List.range'_succ, stepSkipB, hidx]
      | error e =>
          cases e with
          | kusto msg =>
              have hae : alreadyExistsMsg msg = true := by
                rw [hr] at hi
                simpa [stepFatalB, stepOkB, stepSkipB] using hi
              simp [cmd_setup_from, hr, hae, ih, List.range'_succ, stepSkipB,
                hidx]
          | other n m =>
              exfalso
              rw [hr] at hi
              simp [stepFatalB, stepOkB, stepSkipB] at hi

/-- Helper: if no step among the first m of the remaining steps is fatal,
the run submits at least those m steps, in order, and reports each. -/
theorem cmd_setup_from_nonfatal_upto (exec : Nat → Nat → Except PyError Unit) :
    ∀ (m : Nat) (steps : List (String × String)) (i : Nat),
      m ≤ steps.length →
      (∀ j, i ≤ j → j < i + m → stepFatalB (stepResult exec j) = false) →
      (∃ t r, (cmd_setup_from exec i steps).attempted = List.range' i m ++ t
        ∧ (cmd_setup_from exec i steps).reports =
            (List.range' i m).map
              (fun j => (j, if stepSkipB (stepResult exec j)
                 then StepOutcome.skipped else StepOutcome.ok)) ++ r)
      ∧ (m < steps.length → (i + m) ∈ (cmd_setup_from exec i steps).attempted)
  | 0, steps, i, _hm, _h => by
      refine ⟨⟨(cmd_setup_from exec i steps).attempted,
        (cmd_setup_from exec i steps).reports, by simp [List.range']⟩, ?_⟩
      intro hlt
      match steps, hlt with
      | (d, c) :: rest, _ =>
        cases hr : stepResult exec i with
        | ok v => simp [cmd_setup_from, hr]
        | error e =>
            cases e with
            | kusto msg =>
                by_cases hae : alreadyExistsMsg msg
                · simp [cmd_setup_from, hr, hae]
                · simp [cmd_setup_from, hr, hae]
            | other nm m' => simp [cmd_setup_from, hr]
  | m + 1, [], i, hm, _h => by simp at hm
  | m + 1, (d, c) :: rest, i, hm, h => by
      have hi : stepFatalB (stepResult exec i) = false := by
        refine h i (Nat.le_refl i) ?_
        omega
      have hm' : m ≤ rest.length := by
        simp only [List.length_cons] at hm
        omega
      have h' : ∀ j, i + 1 ≤ j → j < (i + 1) + m →
          stepFatalB (stepResult exec j) = false := by
        intro j h1 h2
        exact h j (by omega) (by omega)
      obtain ⟨⟨t, r, ht, hrep⟩, hnext⟩ :=
        cmd_setup_from_nonfatal_upto exec m rest (i + 1) hm' h'
      have hidx : i + (m + 1) = (i + 1) + m := by omega
      cases hr : stepResult exec i with
      | ok v =>
          refine ⟨⟨t, r, by simp [cmd_setup_from, hr, ht, hrep,
            List.range'_succ, stepSkipB]⟩, ?_⟩
          intro hlt
          have hm2 : m < rest.length := by
            simp only [List.length_cons] at hlt
            omega
          simp [cmd_setup_from, hr, hidx]
          exact Or.inr (hnext hm2)
      | error e =>
          cases e with
          | kusto msg =>
              have hae : alreadyExistsMsg msg = true := by
                rw [hr] at hi
                simpa [stepFatalB, stepOkB, stepSkipB] using hi
              refine ⟨⟨t, r, by simp [cmd_setup_from, hr, hae, ht, hrep,
                List.range'_succ, stepSkipB]⟩, ?_⟩
              intro hlt
              have hm2 : m < rest.length := by
                simp only [List.length_cons] at hlt
                omega
              simp [cmd_setup_from, hr, hae, hidx]
              exact Or.inr (hnext hm2)
          | other n m' =>
              exfalso
              rw [hr] at hi
              simp [stepFatalB, stepOkB, stepSkipB] at hi

/-- Claim C2: cmd_setup iterates SCHEMA_COMMANDS in declaration order; when
the first fatal (non already-exists) failure occurs at step k, steps 1..k-1
have each been submitted and reported OK or SKIPPED, the exception
propagates to the caller, and steps k+1..N are never attempted. -/
theorem cmd_setup_fail_fast (exec : Nat → Nat → Except PyError Unit) (k : Nat)
    (hk1 : 1 ≤ k) (hk2 : k ≤ SCHEMA_COMMANDS.length)
    (hprev : ∀ j, 1 ≤ j → j < k → stepFatalB (stepResult exec j) = false)
    (hfat : stepFatalB (stepResult exec k) = true) :
    (cmd_setup exec).attempted = List.range' 1 k
      ∧ (cmd_setup exec).reports =
          (List.range' 1 (k - 1)).map
            (fun j => (j, if stepSkipB (stepResult exec j)
               then StepOutcome.skipped else StepOutcome.ok))
      ∧ (cmd_setup exec).error = errOf (stepResult exec k)
      ∧ ∀ j, k < j → j ∉ (cmd_setup exec).attempted := by
  have hk' : k - 1 < SCHEMA_COMMANDS.length := by omega
  have hpre : ∀ j, 1 ≤ j → j < 1 + (k - 1) →
      stepFatalB (stepResult exec j) = false :=
    fun j hj1 hj2 => hprev j hj1 (by omega)
  have hik : 1 + (k - 1) = k := by omega
  have hfat' : stepFatalB (stepResult exec (1 + (k - 1))) = true := by
    rw [hik]; exact hfat
  have h := cmd_setup_from_fatal exec SCHEMA_COMMANDS (k - 1) 1 hk' hpre hfat'
  rw [hik] at h
  have hk1' : k - 1 + 1 = k := by omega
  refine ⟨?_, ?_, ?_, ?_⟩
  · simp only [cmd_setup]; rw [h, hk1']
  · simp only [cmd_setup]; rw [h]
  · simp only [cmd_setup]; rw [h]
  · simp only [cmd_setup]; rw [h, hk1']
    intro j hj hmem
    rw [List.mem_range'_1] at hmem
    omega

/-- Witness for C2: a run whose second step raises a fatal schema error. -/
theorem cmd_setup_fail_fast_witness :
    (cmd_setup (fun i _ => if i = 2
        then Except.error (PyError.kusto "Table has a different schema")
        else Except.ok ())).attempted = List.range' 1 2
      ∧ (cmd_setup (fun i _ => if i = 2
          then Except.error (PyError.kusto "Table has a different schema")
          else Except.ok ())).reports =
          (List.range' 1 (2 - 1)).map
            (fun j => (j, if stepSkipB (stepResult (fun i _ => if i = 2
               then Except.error (PyError.kusto "Table has a different schema")
               else Except.ok ()) j)
               then StepOutcome.skipped else StepOutcome.ok))
      ∧ (cmd_setup (fun i _ => if i = 2
          then Except.error (PyError.kusto "Table has a different schema")
          else Except.ok ())).error =
          errOf (stepResult (fun i _ => if i = 2
            then Except.error (PyError.kusto "Table has a different schema")
            else Except.ok ()) 2)
      ∧ ∀ j, 2 < j → j ∉ (cmd_setup (fun i _ => if i = 2
          then Except.error (PyError.kusto "Table has a different schema")
          else Except.ok ())).attempted :=
  cmd_setup_fail_fast
    (fun i _ => if i = 2
      then Except.error (PyError.kusto "Table has a different schema")
      else Except.ok ())
    2 (by decide) (by decide)
    (by intro j h1 h2
        have hj : j = 1 := by omega
        subst hj
        rfl)
    rfl

/-- Claim C3: a step whose executor result is a KustoServiceError with an
already-exists message is reported SKIPPED and the run continues with the
next step instead of aborting. -/
theorem cmd_setup_skip_continues (exec : Nat → Nat → Except PyError Unit)
    (k : Nat) (hk1 : 1 ≤ k) (hk2 : k ≤ SCHEMA_COMMANDS.length)
    (hprev : ∀ j, 1 ≤ j → j < k → stepFatalB (stepResult exec j) = false)
    (hskip : stepSkipB (stepResult exec k) = true) :
    (k, StepOutcome.skipped) ∈ (cmd_setup exec).reports
      ∧ (k < SCHEMA_COMMANDS.length → (k + 1) ∈ (cmd_setup exec).attempted) := by
  have hnf : ∀ j, 1 ≤ j → j ≤ k → stepFatalB (stepResult exec j) = false := by
    intro j h1 h2
    rcases Nat.lt_or_ge j k with h | h
    · exact hprev j h1 h
    · have hjk : j = k := by omega
      subst hjk
      simp [stepFatalB, hskip]
  obtain ⟨⟨t, r, _ht, hrep⟩, hnext⟩ := cmd_setup_from_nonfatal_upto exec k
    SCHEMA_COMMANDS 1 (by omega) (fun j h1 h2 => hnf j h1 (by omega))
  constructor
  · simp only [cmd_setup]
    rw [hrep]
    refine List.mem_append_left _ ?_
    refine List.mem_map.mpr ⟨k, ?_, ?_⟩
    · rw [List.mem_range'_1]; omega
    · simp [hskip]
  · intro hklt
    have hmem := hnext hklt
    have hik : 1 + k = k + 1 := by omega
    rw [hik] at hmem
    simpa only [cmd_setup] using hmem

/-- Witness for C3: the third step reports already exists and the run
continues with step four. -/
theorem cmd_setup_skip_continues_witness :
    (3, StepOutcome.skipped) ∈ (cmd_setup (fun i _ => if i = 3
        then Except.error (PyError.kusto "Entity already exists")
        else Except.ok ())).reports
      ∧ (3 < SCHEMA_COMMANDS.length → (3 + 1) ∈ (cmd_setup (fun i _ => if i = 3
          then Except.error (PyError.kusto "Entity already exists")
          else Except.ok ())).attempted) :=
  cmd_setup_skip_continues
    (fun i _ => if i = 3
      then Except.error (PyError.kusto "Entity already exists")
      else Except.ok ())
    3 (by decide) (by decide)
    (by intro j h1 h2
        have hj : j = 1 ∨ j = 2 := by omega
        rcases hj with hj | hj <;> subst hj <;> rfl)
    rfl

/-- Claim C5: re-running the full setup sequence against an already
provisioned target - modelled by the hypothesis that every creation attempt
either succeeds (create-merge and create-or-alter are re-runnable) or
raises an already-exists KustoServiceError - completes with every step
reported OK or SKIPPED and no fatal error propagated. -/
theorem cmd_setup_idempotent (exec : Nat → Nat → Except PyError Unit)
    (h : ∀ j, 1 ≤ j → j ≤ SCHEMA_COMMANDS.length →
        stepOkB (stepResult exec j) = true
          ∨ stepSkipB (stepResult exec j) = true) :
    (cmd_setup exec).error = none
      ∧ (cmd_setup exec).attempted = List.range' 1 SCHEMA_COMMANDS.length
      ∧ (cmd_setup exec).reports.map Prod.fst
          = List.range' 1 SCHEMA_COMMANDS.length
      ∧ ∀ p ∈ (cmd_setup exec).reports,
          p.2 = StepOutcome.ok ∨ p.2 = StepOutcome.skipped := by
  have hnf : ∀ j, 1 ≤ j → j < 1 + SCHEMA_COMMANDS.length →
      stepFatalB (stepResult exec j) = false := by
    intro j h1 h2
    rcases h j h1 (by omega) with hok | hsk
    · simp [stepFatalB, hok]
    · simp [stepFatalB, hsk]
  have heq := cmd_setup_from_nonfatal exec SCHEMA_COMMANDS 1 hnf
  simp only [cmd_setup]
  rw [heq]
  refine ⟨rfl, rfl, ?_, ?_⟩
  · rw [List.map_map]
    have hcomp : (Prod.fst ∘ fun j => (j, if stepSkipB (stepResult exec j)
        then StepOutcome.skipped else StepOutcome.ok)) = id := by
      funext j
      rfl
    rw [hcomp, List.map_id]
  · intro p hp
    rw [List.mem_map] at hp
    obtain ⟨j, _hj1, hj2⟩ := hp
    cases hs : stepSkipB (stepResult exec j)
    · left; rw [← hj2]; simp [hs]
    · right; rw [← hj2]; simp [hs]

/-- Witness for C5: a second run in which every creation attempt reports
already exists. -/
theorem cmd_setup_idempotent_witness :
    (cmd_setup (fun _ _ =>
        Except.error (PyError.kusto "Entity of kind Table already exists"))).error
        = none
      ∧ (cmd_setup (fun _ _ =>
          Except.error (PyError.kusto "Entity of kind Table already exists"))).attempted
          = List.range' 1 SCHEMA_COMMANDS.length
      ∧ (cmd_setup (fun _ _ =>
          Except.error (PyError.kusto "Entity of kind Table already exists"))).reports.map
            Prod.fst
          = List.range' 1 SCHEMA_COMMANDS.length
      ∧ ∀ p ∈ (cmd_setup (fun _ _ =>
          Except.error (PyError.kusto "Entity of kind Table already exists"))).reports,
          p.2 = StepOutcome.ok ∨ p.2 = StepOutcome.skipped :=
  cmd_setup_idempotent
    (fun _ _ => Except.error (PyError.kusto "Entity of kind Table already exists"))
    (fun _j _ _ => Or.inr rfl)

/-- Claim C10: only KustoServiceError values are retried by the executor or
skipped by the setup sequencer; an exception of any other type propagates
immediately out of both, with a single attempt, no sleeps and no skip,
regardless of its message. -/
theorem only_kusto_errors_handled {α : Type} (exec1 : Nat → Except PyError α)
    (nm msg : String) (exec : Nat → Nat → Except PyError Unit) (k : Nat)
    (h1 : exec1 1 = .error (.other nm msg))
    (hk1 : 1 ≤ k) (hk2 : k ≤ SCHEMA_COMMANDS.length)
    (hprev : ∀ j, 1 ≤ j → j < k → stepFatalB (stepResult exec j) = false)
    (hstep : stepResult exec k = .error (.other nm msg)) :
    _execute_with_retry exec1 _MAX_RETRIES
        = ⟨.error (.other nm msg), 1, []⟩
      ∧ (cmd_setup exec).error = some (.other nm msg)
      ∧ (k, StepOutcome.skipped) ∉ (cmd_setup exec).reports
      ∧ (cmd_setup exec).attempted = List.range' 1 k := by
  have hfat : stepFatalB (stepResult exec k) = true := by
    rw [hstep]; rfl
  have hk' : k - 1 < SCHEMA_COMMANDS.length := by omega
  have hpre : ∀ j, 1 ≤ j → j < 1 + (k - 1) →
      stepFatalB (stepResult exec j) = false :=
    fun j hj1 hj2 => hprev j hj1 (by omega)
  have hik : 1 + (k - 1) = k := by omega
  have hfat' : stepFatalB (stepResult exec (1 + (k - 1))) = true := by
    rw [hik]; exact hfat
  have h := cmd_setup_from_fatal exec SCHEMA_COMMANDS (k - 1) 1 hk' hpre hfat'
  rw [hik] at h
  have hk1' : k - 1 + 1 = k := by omega
  refine ⟨?_, ?_, ?_, ?_⟩
  · simp [_execute_with_retry, _MAX_RETRIES, retryFrom, h1]
  · simp only [cmd_setup]; rw [h, hstep]; rfl
  · simp only [cmd_setup]; rw [h]
    intro hmem
    rw [List.mem_map] at hmem
    obtain ⟨j, hj1, hj2⟩ := hmem
    rw [List.mem_range'_1] at hj1
    have : j = k := by
      have := congrArg Prod.fst hj2
      simpa using this
    omega
  · simp only [cmd_setup]; rw [h, hk1']

/-- Witness for C10: a non-Kusto exception whose message contains both a
transient substring and an already-exists substring still propagates
immediately and is not skipped. -/
theorem only_kusto_errors_handled_witness :
    _execute_with_retry (fun _ => (Except.error (PyError.other "ValueError"
        "already exists and failed to process network request") :
        Except PyError Nat)) _MAX_RETRIES
        = ⟨.error (.other "ValueError"
            "already exists and failed to process network request"), 1, []⟩
      ∧ (cmd_setup (fun _ _ => Except.error (PyError.other "ValueError"
          "already exists and failed to process network request"))).error
          = some (.other "ValueError"
              "already exists and failed to process network request")
      ∧ (1, StepOutcome.skipped) ∉ (cmd_setup (fun _ _ =>
          Except.error (PyError.other "ValueError"
            "already exists and failed to process network request"))).reports
      ∧ (cmd_setup (fun _ _ => Except.error (PyError.other "ValueError"
          "already exists and failed to process network request"))).attempted
          = List.range' 1 1 :=
  only_kusto_errors_handled
    (fun _ => (Except.error (PyError.other "ValueError"
      "already exists and failed to process network request") :
      Except PyError Nat))
    "ValueError" "already exists and failed to process network request"
    (fun _ _ => Except.error (PyError.other "ValueError"
      "already exists and failed to process network request"))
    1 rfl (by decide) (by decide)
    (by intro j hj1 hj2; omega)
    rfl

/-- Python pathlib name: the part of the path after the last slash. -/
def pathNameL (l : List Char) : List Char :=
  (l.reverse.takeWhile (fun c => c ≠ '/')).reverse

/-- Scan of the reversed file name used by pySuffixL: acc accumulates the
characters after the last dot (in original order); a suffix exists only if
the last dot has a character before it and one after it, matching the
pathlib rule 0 < name.rfind(".") < len(name) - 1. -/
def extScan : List Char → List Char → List Char
  | _acc, [] => []
  | acc, c :: rest =>
      if c = '.' then
        if acc = [] then [] else if rest = [] then [] else '.' :: acc
      else extScan (c :: acc) rest

/-- Python pathlib suffix of a file name (the final path component). -/
def pySuffixL (name : List Char) : List Char := extScan [] name.reverse

/-- Python truthiness-based default: mapping or "default" treats both None
and the empty string as absent. -/
def pyOr (o : Option String) (d : String) : String :=
  match o with
  | some s => if s.isEmpty then d else s
  | none => d

/-- The two data formats the resolvers can produce (members CSV and JSON of
the azure DataFormat enum). -/
inductive DataFormat : Type
  | CSV
  | JSON
deriving DecidableEq, BEq

/-- _resolve_format_and_mapping(file_path, args): explicit format (lowered)
wins; otherwise the lowered pathlib suffix of the file name selects csv or
json, any other suffix being a fatal user-facing error raised before any
client is built; the mapping defaults per format unless given. -/
def _resolve_format_and_mapping (filePath : String)
    (fmt? mapping? : Option String) : Except String (DataFormat × String) :=
  let inferred : Except String (List Char) :=
    let ext := lowerL (pySuffixL (pathNameL filePath.data))
    if ext = ".csv".data then .ok "csv".data
    else if ext = ".json".data ∨ ext = ".jsonl".data then .ok "json".data
    else .error ("ERROR: Cannot determine format from extension \x27"
      ++ String.mk ext ++ "\x27. Use --format csv or --format json.")
  let fmtLower : Except String (List Char) :=
    match fmt? with
    | some f => if f.isEmpty then inferred else .ok (lowerL f.data)
    | none => inferred
  match fmtLower with
  | .error e => .error e
  | .ok fl =>
      if fl = "csv".data then
        .ok (DataFormat.CSV, pyOr mapping? "FileTransferEvents_CsvMapping")
      else if fl = "json".data then
        .ok (DataFormat.JSON, pyOr mapping? "FileTransferEvents_JsonMapping")
      else .error ("ERROR: Unsupported format: " ++ String.mk fl)

/-- _resolve_format_and_mapping_from_uri(uri, args): as above but the
suffix test is a case-sensitive endswith on the URI after stripping the
query string (everything from the first question mark). -/
def _resolve_format_and_mapping_from_uri (uri : String)
    (fmt? mapping? : Option String) : Except String (DataFormat × String) :=
  let inferred : Except String (List Char) :=
    let path_part := uri.data.takeWhile (fun c => c ≠ '?')
    if endsWithL ".csv".data path_part then .ok "csv".data
    else if endsWithL ".json".data path_part
        || endsWithL ".jsonl".data path_part then .ok "json".data
    else .error ("ERROR: Cannot determine format from blob URI. "
      ++ "Use --format csv or --format json.")
  let fmtLower : Except String (List Char) :=
    match fmt? with
    | some f => if f.isEmpty then inferred else .ok (lowerL f.data)
    | none => inferred
  match fmtLower with
  | .error e => .error e
  | .ok fl =>
      if fl = "csv".data then
        .ok (DataFormat.CSV, pyOr mapping? "FileTransferEvents_CsvMapping")
      else if fl = "json".data then
        .ok (DataFormat.JSON, pyOr mapping? "FileTransferEvents_JsonMapping")
      else .error ("ERROR: Unsupported format: " ++ String.mk fl)

/-- The IngestionProperties record built by the two ingestion commands. -/
structure IngestionProperties : Type where
  database : String
  table : String
  data_format : DataFormat
  ingestion_mapping_reference : String
  ignore_first_record : Bool
deriving DecidableEq

/-- Service-facing actions performed by an ingestion command, in order. -/
inductive IngestAction : Type
  | builtClient (ingestUri : String)
  | queuedFile (path : String) (props : IngestionProperties)
  | queuedBlob (blobUri : String) (props : IngestionProperties)
deriving DecidableEq

/-- Result of an ingestion command: the service-facing actions performed
and the fatal user error, if the command exited early. -/
structure CmdResult : Type where
  actions : List IngestAction
  error : Option String

/-- cmd_ingest_local(args): check the ingest URI, check the file exists,
resolve format and mapping, then build the client and queue the file with
ignore_first_record set exactly for CSV. -/
def cmd_ingest_local (ingestUri filePath : String) (fileExists : Bool)
    (database : String) (fmt? mapping? : Option String) : CmdResult :=
  if ingestUri.isEmpty then
    ⟨[], some "ERROR: --ingest-uri is required for ingestion."⟩
  else if !fileExists then
    ⟨[], some ("ERROR: File not found: " ++ filePath)⟩
  else
    match _resolve_format_and_mapping filePath fmt? mapping? with
    | .error e => ⟨[], some e⟩
    | .ok (df, mp) =>
        ⟨[.builtClient ingestUri,
          .queuedFile filePath
            ⟨database, "FileTransferEvents_Raw", df, mp,
              df == DataFormat.CSV⟩], none⟩

/-- cmd_ingest_blob(args): check the ingest URI and blob URI, resolve the
format from the blob URI, then build the client and queue the blob. -/
def cmd_ingest_blob (ingestUri blobUri : String) (database : String)
    (fmt? mapping? : Option String) : CmdResult :=
  if ingestUri.isEmpty then
    ⟨[], some "ERROR: --ingest-uri is required for ingestion."⟩
  else if blobUri.isEmpty then
    ⟨[], some "ERROR: --blob-uri is required for blob ingestion."⟩
  else
    match _resolve_format_and_mapping_from_uri blobUri fmt? mapping? with
    | .error e => ⟨[], some e⟩
    | .ok (df, mp) =>
        ⟨[.builtClient ingestUri,
          .queuedBlob blobUri
            ⟨database, "FileTransferEvents_Raw", df, mp,
              df == DataFormat.CSV⟩], none⟩

/-- The mapping name created by a KQL create-or-alter ingestion mapping
statement: the text between the first pair of single quotes. -/
def kqlMappingName (stmt : String) : String :=
  String.mk (((stmt.data.dropWhile (fun c => c ≠ '\x27')).drop 1).takeWhile
    (fun c => c ≠ '\x27'))

/-- Claim C4: explicit format wins over suffix inference (the result does
not depend on the path); with no explicit format, a lowered pathlib suffix
.csv resolves to CSV and .json or .jsonl to JSON; any other suffix makes
cmd_ingest_local exit with a user-facing error before any service-facing
action; for a blob URI the query string is stripped before the suffix is
examined. -/
theorem format_resolution_policy (p1 p2 pc pj pl px f : String)
    (m? : Option String)
    (hf : f.isEmpty = false)
    (hc : lowerL (pySuffixL (pathNameL pc.data)) = ".csv".data)
    (hj : lowerL (pySuffixL (pathNameL pj.data)) = ".json".data)
    (hl : lowerL (pySuffixL (pathNameL pl.data)) = ".jsonl".data)
    (hx1 : lowerL (pySuffixL (pathNameL px.data)) ≠ ".csv".data)
    (hx2 : lowerL (pySuffixL (pathNameL px.data)) ≠ ".json".data)
    (hx3 : lowerL (pySuffixL (pathNameL px.data)) ≠ ".jsonl".data) :
    (_resolve_format_and_mapping p1 (some f) m?
        = _resolve_format_and_mapping p2 (some f) m?)
      ∧ _resolve_format_and_mapping pc none m?
          = .ok (DataFormat.CSV, pyOr m? "FileTransferEvents_CsvMapping")
      ∧ _resolve_format_and_mapping pj none m?
          = .ok (DataFormat.JSON, pyOr m? "FileTransferEvents_JsonMapping")
      ∧ _resolve_format_and_mapping pl none m?
          = .ok (DataFormat.JSON, pyOr m? "FileTransferEvents_JsonMapping")
      ∧ (cmd_ingest_local "https://ingest.example" px true "db" none m?).actions
          = []
      ∧ ((cmd_ingest_local "https://ingest.example" px true "db" none m?).error).isSome
          = true
      ∧ _resolve_format_and_mapping_from_uri "https://x/y/data.csv?sv=sig"
          none none
          = .ok (DataFormat.CSV, "FileTransferEvents_CsvMapping") := by
  refine ⟨?_, ?_, ?_, ?_, ?_, ?_, ?_⟩
  · simp [_resolve_format_and_mapping, hf]
  · simp [_resolve_format_and_mapping, hc]
  · simp [_resolve_format_and_mapping, hj]
  · simp [_resolve_format_and_mapping, hl]
  · simp [cmd_ingest_local, _resolve_format_and_mapping, hx1, hx2, hx3,
      show "https://ingest.example".isEmpty = false from rfl]
  · simp [cmd_ingest_local, _resolve_format_and_mapping, hx1, hx2, hx3,
      show "https://ingest.example".isEmpty = false from rfl]
  · rfl

/-- Witness for C4 at concrete file names. -/
theorem format_resolution_policy_witness :
    (_resolve_format_and_mapping "a.txt" (some "csv") none
        = _resolve_format_and_mapping "b.json" (some "csv") none)
      ∧ _resolve_format_and_mapping "events.csv" none none
          = .ok (DataFormat.CSV, pyOr none "FileTransferEvents_CsvMapping")
      ∧ _resolve_format_and_mapping "events.json" none none
          = .ok (DataFormat.JSON, pyOr none "FileTransferEvents_JsonMapping")
      ∧ _resolve_format_and_mapping "events.jsonl" none none
          = .ok (DataFormat.JSON, pyOr none "FileTransferEvents_JsonMapping")
      ∧ (cmd_ingest_local "https://ingest.example" "events.txt" true "db"
          none none).actions = []
      ∧ ((cmd_ingest_local "https://ingest.example" "events.txt" true "db"
          none none).error).isSome = true
      ∧ _resolve_format_and_mapping_from_uri "https://x/y/data.csv?sv=sig"
          none none
          = .ok (DataFormat.CSV, "FileTransferEvents_CsvMapping") :=
  format_resolution_policy "a.txt" "b.json" "events.csv" "events.json"
    "events.jsonl" "events.txt" "csv" none rfl rfl rfl rfl
    (by decide) (by decide) (by decide)

/-- Claim C6: an explicit non-empty mapping always wins in both resolvers;
with no explicit mapping the default is FileTransferEvents_CsvMapping for
CSV and FileTransferEvents_JsonMapping for JSON; and these names are
exactly the mapping names created by the CSV-mapping and JSON-mapping
steps of SCHEMA_COMMANDS (steps 6 and 7). -/
theorem mapping_resolution_policy (p u : String) (f? : Option String)
    (m : String) (hm : m.isEmpty = false) :
    (∀ df mp, _resolve_format_and_mapping p f? (some m) = .ok (df, mp)
        → mp = m)
      ∧ (∀ df mp, _resolve_format_and_mapping p f? none = .ok (df, mp)
          → mp = (if df = DataFormat.CSV then "FileTransferEvents_CsvMapping"
              else "FileTransferEvents_JsonMapping"))
      ∧ (∀ df mp, _resolve_format_and_mapping_from_uri u f? (some m)
            = .ok (df, mp) → mp = m)
      ∧ (∀ df mp, _resolve_format_and_mapping_from_uri u f? none
            = .ok (df, mp)
          → mp = (if df = DataFormat.CSV then "FileTransferEvents_CsvMapping"
              else "FileTransferEvents_JsonMapping"))
      ∧ kqlMappingName (SCHEMA_COMMANDS.getD 5 ("", "")).2
          = "FileTransferEvents_CsvMapping"
      ∧ kqlMappingName (SCHEMA_COMMANDS.getD 6 ("", "")).2
          = "FileTransferEvents_JsonMapping" := by
  refine ⟨?_, ?_, ?_, ?_, rfl, rfl⟩
  · intro df mp h
    simp only [_resolve_format_and_mapping] at h
    split at h
    · exact absurd h (by simp)
    · split at h
      · simp [pyOr, hm] at h
        simp [h.2.symm, pyOr, hm]
      · split at h
        · simp [pyOr, hm] at h
          simp [h.2.symm, pyOr, hm]
        · exact absurd h (by simp)
  · intro df mp h
    simp only [_resolve_format_and_mapping] at h
    split at h
    · exact absurd h (by simp)
    · split at h
      · simp [pyOr] at h
        simp [← h.1, ← h.2]
      · split at h
        · simp [pyOr] at h
          simp [← h.1, ← h.2]
        · exact absurd h (by simp)
  · intro df mp h
    simp only [_resolve_format_and_mapping_from_uri] at h
    split at h
    · exact absurd h (by simp)
    · split at h
      · simp [pyOr, hm] at h
        simp [h.2.symm, pyOr, hm]
      · split at h
        · simp [pyOr, hm] at h
          simp [h.2.symm, pyOr, hm]
        · exact absurd h (by simp)
  · intro df mp h
    simp only [_resolve_format_and_mapping_from_uri] at h
    split at h
    · exact absurd h (by simp)
    · split at h
      · simp [pyOr] at h
        simp [← h.1, ← h.2]
      · split at h
        · simp [pyOr] at h
          simp [← h.1, ← h.2]
        · exact absurd h (by simp)

/-- Witness for C6 with an explicit mapping name and the two default
resolutions. -/
theorem mapping_resolution_policy_witness :
    ((∀ df mp, _resolve_format_and_mapping "e.csv" none (some "MyMapping")
        = .ok (df, mp) → mp = "MyMapping")
      ∧ (∀ df mp, _resolve_format_and_mapping "e.csv" none none = .ok (df, mp)
          → mp = (if df = DataFormat.CSV then "FileTransferEvents_CsvMapping"
              else "FileTransferEvents_JsonMapping"))
      ∧ (∀ df mp, _resolve_format_and_mapping_from_uri "https://x/e.json" none
            (some "MyMapping") = .ok (df, mp) → mp = "MyMapping")
      ∧ (∀ df mp, _resolve_format_and_mapping_from_uri "https://x/e.json" none
            none = .ok (df, mp)
          → mp = (if df = DataFormat.CSV then "FileTransferEvents_CsvMapping"
              else "FileTransferEvents_JsonMapping"))
      ∧ kqlMappingName (SCHEMA_COMMANDS.getD 5 ("", "")).2
          = "FileTransferEvents_CsvMapping"
      ∧ kqlMappingName (SCHEMA_COMMANDS.getD 6 ("", "")).2
          = "FileTransferEvents_JsonMapping")
      ∧ _resolve_format_and_mapping "e.csv" none (some "MyMapping")
          = .ok (DataFormat.CSV, "MyMapping")
      ∧ _resolve_format_and_mapping "e.csv" none none
          = .ok (DataFormat.CSV, "FileTransferEvents_CsvMapping") :=
  ⟨mapping_resolution_policy "e.csv" "https://x/e.json" none "MyMapping" rfl,
    rfl, rfl⟩

/-- Counterexample for C7: for the file name DATA.CSV the local resolver
lowercases the pathlib suffix and yields CSV, while the blob-URI resolver
does a case-sensitive endswith and fails, so the two resolution functions
are not equivalent. -/
theorem resolvers_differ_on_uppercase :
    _resolve_format_and_mapping "DATA.CSV" none none
      ≠ _resolve_format_and_mapping_from_uri "https://x/y/DATA.CSV" none none := by
  intro h
  have h2 := congrArg Except.isOk h
  rw [show (_resolve_format_and_mapping "DATA.CSV" none none).isOk
        = true from rfl,
      show (_resolve_format_and_mapping_from_uri "https://x/y/DATA.CSV"
        none none).isOk = false from rfl] at h2
  exact Bool.noConfusion h2

/-- Helper: takeWhile keeps a list all of whose elements satisfy the
predicate. -/
theorem takeWhileAll {p : Char → Bool} :
    ∀ {l : List Char}, (∀ a ∈ l, p a = true) → l.takeWhile p = l := by
  intro l
  induction l with
  | nil => intro _; rfl
  | cons a l ih =>
      intro h
      rw [List.takeWhile_cons, h a (List.mem_cons_self a l),
        ih (fun b hb => h b (List.mem_cons_of_mem a hb))]
      simp

/-- Helper: pathNameL is the identity on names with no slash. -/
theorem pathNameL_id {l : List Char} (h : ('/' : Char) ∉ l) :
    pathNameL l = l := by
  unfold pathNameL
  rw [takeWhileAll, List.reverse_reverse]
  intro a ha
  rw [List.mem_reverse] at ha
  simp only [decide_eq_true_eq]
  intro hcontra
  subst hcontra
  exact h ha

/-- Helper: extScan skips a dotless prefix, moving it into the
accumulator. -/
theorem extScanNoDot :
    ∀ (xs acc r : List Char), ('.' : Char) ∉ xs →
      extScan acc (xs ++ r) = extScan (xs.reverse ++ acc) r := by
  intro xs
  induction xs with
  | nil => intro acc r _; rfl
  | cons x xs ih =>
      intro acc r h
      have hx : x ≠ '.' := by
        intro hcontra
        subst hcontra
        exact h (List.mem_cons_self _ _)
      rw [List.cons_append]
      rw [show extScan acc (x :: (xs ++ r))
          = extScan (x :: acc) (xs ++ r) by simp [extScan, hx]]
      rw [ih (x :: acc) r (fun hm => h (List.mem_cons_of_mem x hm))]
      simp

/-- Helper: the pathlib suffix of stem ++ . ++ ext is . ++ ext when the
stem is nonempty and ext is a nonempty dotless tail. -/
theorem pySuffixL_append (stem ext : List Char) (hne : stem ≠ [])
    (hdot : ('.' : Char) ∉ ext) (hextne : ext ≠ []) :
    pySuffixL (stem ++ '.' :: ext) = '.' :: ext := by
  unfold pySuffixL
  rw [List.reverse_append, List.reverse_cons, List.append_assoc,
    List.singleton_append]
  rw [extScanNoDot ext.reverse [] ('.' :: stem.reverse)
    (by intro hm; exact hdot (List.mem_reverse.mp hm))]
  rw [List.reverse_reverse, List.append_nil]
  have hsr : stem.reverse ≠ [] := by
    intro hcontra
    exact hne (by simpa using congrArg List.reverse hcontra)
  simp [extScan, hextne, hsr]

/-- Helper: startsL holds for a list against itself extended. -/
theorem startsL_self : ∀ (xs r : List Char), startsL xs (xs ++ r) = true := by
  intro xs
  induction xs with
  | nil => intro r; rfl
  | cons a as ih => intro r; simp [startsL, ih]

/-- Helper: endsWithL holds for an appended suffix. -/
theorem endsWith_append (ext l : List Char) :
    endsWithL ext (l ++ ext) = true := by
  unfold endsWithL
  rw [List.reverse_append]
  exact startsL_self ext.reverse l.reverse

/-- Helper: startsL fails when the heads differ. -/
theorem startsL_head_false (a b : Char) (as bs : List Char)
    (h : (a == b) = false) : startsL (a :: as) (b :: bs) = false := by
  simp [startsL, h]

/-- Helper: endsWithL holds for a suffix at the end of a nested append. -/
theorem endsWith_concat (pre mid ext : List Char) :
    endsWithL ext (pre ++ (mid ++ ext)) = true := by
  rw [show pre ++ (mid ++ ext) = (pre ++ mid) ++ ext from
    (List.append_assoc _ _ _).symm]
  exact endsWith_append ext (pre ++ mid)

/-- Claim C7 as amended: the local resolver and the blob-URI resolver agree
whenever an explicit format is given, and, with no explicit format, on
every file name consisting of a nonempty stem (without slash or question
mark) followed by a literal lowercase extension .csv, .json or .jsonl; the
unrestricted equivalence claimed by the spec fails because the URI
resolver matches the extension case-sensitively (see the counterexample
DATA.CSV). -/
theorem resolvers_agree_amended (stem name f : String) (m? : Option String)
    (hne : stem.data ≠ []) (hslash : ('/' : Char) ∉ stem.data)
    (hq : ('?' : Char) ∉ stem.data) (hf : f.isEmpty = false) :
    (_resolve_format_and_mapping name (some f) m?
        = _resolve_format_and_mapping_from_uri ("https://x/y/" ++ name)
            (some f) m?)
      ∧ (_resolve_format_and_mapping (stem ++ ".csv") none m?
          = _resolve_format_and_mapping_from_uri
              ("https://x/y/" ++ (stem ++ ".csv")) none m?)
      ∧ (_resolve_format_and_mapping (stem ++ ".json") none m?
          = _resolve_format_and_mapping_from_uri
              ("https://x/y/" ++ (stem ++ ".json")) none m?)
      ∧ (_resolve_format_and_mapping (stem ++ ".jsonl") none m?
          = _resolve_format_and_mapping_from_uri
              ("https://x/y/" ++ (stem ++ ".jsonl")) none m?) := by
  refine ⟨?_, ?_, ?_, ?_⟩
  · simp [_resolve_format_and_mapping, _resolve_format_and_mapping_from_uri,
      hf]
  · have hdata : (stem ++ ".csv").data = stem.data ++ '.' :: "csv".data := by
      rw [String.data_append]
    have hsl2 : ('/' : Char) ∉ stem.data ++ '.' :: "csv".data := by
      intro hm
      rcases List.mem_append.mp hm with hm | hm
      · exact hslash hm
      · revert hm; decide
    have hlow : lowerL (pySuffixL (pathNameL ((stem ++ ".csv").data)))
        = ".csv".data := by
      rw [hdata, pathNameL_id hsl2,
        pySuffixL_append stem.data "csv".data hne (by decide) (by decide)]
      rfl
    have hL : _resolve_format_and_mapping (stem ++ ".csv") none m?
        = .ok (DataFormat.CSV, pyOr m? "FileTransferEvents_CsvMapping") := by
      simp only [_resolve_format_and_mapping]
      rw [hlow]
      rfl
    have hudata : ("https://x/y/" ++ (stem ++ ".csv")).data
        = "https://x/y/".data ++ (stem.data ++ '.' :: "csv".data) := by
      rw [String.data_append, hdata]
    have hqall : ∀ a ∈ "https://x/y/".data ++ (stem.data ++ '.' :: "csv".data),
        (fun c => decide (c ≠ '?')) a = true := by
      intro a ha
      simp only [decide_eq_true_eq]
      intro hcontra
      subst hcontra
      rcases List.mem_append.mp ha with h1 | h1
      · revert h1; decide
      · rcases List.mem_append.mp h1 with h2 | h2
        · exact hq h2
        · revert h2; decide
    have hcsvEnd : endsWithL ".csv".data
        ("https://x/y/".data ++ (stem.data ++ '.' :: "csv".data)) = true :=
      endsWith_concat "https://x/y/".data stem.data ('.' :: "csv".data)
    have hR : _resolve_format_and_mapping_from_uri
        ("https://x/y/" ++ (stem ++ ".csv")) none m?
        = .ok (DataFormat.CSV, pyOr m? "FileTransferEvents_CsvMapping") := by
      simp only [_resolve_format_and_mapping_from_uri]
      rw [hudata, takeWhileAll hqall, hcsvEnd]
      rfl
    rw [hL, hR]
  · have hdata : (stem ++ ".json").data = stem.data ++ '.' :: "json".data := by
      rw [String.data_append]
    have hsl2 : ('/' : Char) ∉ stem.data ++ '.' :: "json".data := by
      intro hm
      rcases List.mem_append.mp hm with hm | hm
      · exact hslash hm
      · revert hm; decide
    have hlow : lowerL (pySuffixL (pathNameL ((stem ++ ".json").data)))
        = ".json".data := by
      rw [hdata, pathNameL_id hsl2,
        pySuffixL_append stem.data "json".data hne (by decide) (by decide)]
      rfl
    have hL : _resolve_format_and_mapping (stem ++ ".json") none m?
        = .ok (DataFormat.JSON, pyOr m? "FileTransferEvents_JsonMapping") := by
      simp only [_resolve_format_and_mapping]
      rw [hlow]
      rfl
    have hudata : ("https://x/y/" ++ (stem ++ ".json")).data
        = "https://x/y/".data ++ (stem.data ++ '.' :: "json".data) := by
      rw [String.data_append, hdata]
    have hqall : ∀ a ∈ "https://x/y/".data ++ (stem.data ++ '.' :: "json".data),
        (fun c => decide (c ≠ '?')) a = true := by
      intro a ha
      simp only [decide_eq_true_eq]
      intro hcontra
      subst hcontra
      rcases List.mem_append.mp ha with h1 | h1
      · revert h1; decide
      · rcases List.mem_append.mp h1 with h2 | h2
        · exact hq h2
        · revert h2; decide
    have hrev : ("https://x/y/".data ++ (stem.data ++ '.' :: "json".data)).reverse
        = 'n' :: 'o' :: 's' :: 'j' :: '.' ::
            (stem.data.reverse ++ "https://x/y/".data.reverse) := by
      rw [List.reverse_append, List.reverse_append, List.reverse_cons,
        show "json".data.reverse = ['n', 'o', 's', 'j'] from rfl]
      simp only [List.append_assoc, List.cons_append, List.singleton_append,
        List.nil_append]
    have hnocsv : endsWithL ".csv".data
        ("https://x/y/".data ++ (stem.data ++ '.' :: "json".data)) = false := by
      unfold endsWithL
      rw [hrev, show (".csv".data).reverse = ['v', 's', 'c', '.'] from rfl]
      exact startsL_head_false _ _ _ _ (by decide)
    have hjEnd : endsWithL ".json".data
        ("https://x/y/".data ++ (stem.data ++ '.' :: "json".data)) = true :=
      endsWith_concat "https://x/y/".data stem.data ('.' :: "json".data)
    have hR : _resolve_format_and_mapping_from_uri
        ("https://x/y/" ++ (stem ++ ".json")) none m?
        = .ok (DataFormat.JSON, pyOr m? "FileTransferEvents_JsonMapping") := by
      simp only [_resolve_format_and_mapping_from_uri]
      rw [hudata, takeWhileAll hqall, hnocsv, hjEnd]
      rfl
    rw [hL, hR]
  · have hdata : (stem ++ ".jsonl").data = stem.data ++ '.' :: "jsonl".data := by
      rw [String.data_append]
    have hsl2 : ('/' : Char) ∉ stem.data ++ '.' :: "jsonl".data := by
      intro hm
      rcases List.mem_append.mp hm with hm | hm
      · exact hslash hm
      · revert hm; decide
    have hlow : lowerL (pySuffixL (pathNameL ((stem ++ ".jsonl").data)))
        = ".jsonl".data := by
      rw [hdata, pathNameL_id hsl2,
        pySuffixL_append stem.data "jsonl".data hne (by decide) (by decide)]
      rfl
    have hL : _resolve_format_and_mapping (stem ++ ".jsonl") none m?
        = .ok (DataFormat.JSON, pyOr m? "FileTransferEvents_JsonMapping") := by
      simp only [_resolve_format_and_mapping]
      rw [hlow]
      rfl
    have hudata : ("https://x/y/" ++ (stem ++ ".jsonl")).data
        = "https://x/y/".data ++ (stem.data ++ '.' :: "jsonl".data) := by
      rw [String.data_append, hdata]
    have hqall : ∀ a ∈ "https://x/y/".data ++ (stem.data ++ '.' :: "jsonl".data),
        (fun c => decide (c ≠ '?')) a = true := by
      intro a ha
      simp only [decide_eq_true_eq]
      intro hcontra
      subst hcontra
      rcases List.mem_append.mp ha with h1 | h1
      · revert h1; decide
      · rcases List.mem_append.mp h1 with h2 | h2
        · exact hq h2
        · revert h2; decide
    have hrev : ("https://x/y/".data ++ (stem.data ++ '.' :: "jsonl".data)).reverse
        = 'l' :: 'n' :: 'o' :: 's' :: 'j' :: '.' ::
            (stem.data.reverse ++ "https://x/y/".data.reverse) := by
      rw [List.reverse_append, List.reverse_append, List.reverse_cons,
        show "jsonl".data.reverse = ['l', 'n', 'o', 's', 'j'] from rfl]
      simp only [List.append_assoc, List.cons_append, List.singleton_append,
        List.nil_append]
    have hnocsv : endsWithL ".csv".data
        ("https://x/y/".data ++ (stem.data ++ '.' :: "jsonl".data)) = false := by
      unfold endsWithL
      rw [hrev, show (".csv".data).reverse = ['v', 's', 'c', '.'] from rfl]
      exact startsL_head_false _ _ _ _ (by decide)
    have hnojson : endsWithL ".json".data
        ("https://x/y/".data ++ (stem.data ++ '.' :: "jsonl".data)) = false := by
      unfold endsWithL
      rw [hrev, show (".json".data).reverse = ['n', 'o', 's', 'j', '.'] from rfl]
      exact startsL_head_false _ _ _ _ (by decide)
    have hjl : endsWithL ".jsonl".data
        ("https://x/y/".data ++ (stem.data ++ '.' :: "jsonl".data)) = true :=
      endsWith_concat "https://x/y/".data stem.data ('.' :: "jsonl".data)
    have hR : _resolve_format_and_mapping_from_uri
        ("https://x/y/" ++ (stem ++ ".jsonl")) none m?
        = .ok (DataFormat.JSON, pyOr m? "FileTransferEvents_JsonMapping") := by
      simp only [_resolve_format_and_mapping_from_uri]
      rw [hudata, takeWhileAll hqall, hnocsv, hnojson, hjl]
      rfl
    rw [hL, hR]

/-- Witness for the amended C7 at a concrete stem and explicit format. -/
theorem resolvers_agree_amended_witness :
    (_resolve_format_and_mapping "n.txt" (some "json") none
        = _resolve_format_and_mapping_from_uri ("https://x/y/" ++ "n.txt")
            (some "json") none)
      ∧ (_resolve_format_and_mapping ("data" ++ ".csv") none none
          = _resolve_format_and_mapping_from_uri
              ("https://x/y/" ++ ("data" ++ ".csv")) none none)
      ∧ (_resolve_format_and_mapping ("data" ++ ".json") none none
          = _resolve_format_and_mapping_from_uri
              ("https://x/y/" ++ ("data" ++ ".json")) none none)
      ∧ (_resolve_format_and_mapping ("data" ++ ".jsonl") none none
          = _resolve_format_and_mapping_from_uri
              ("https://x/y/" ++ ("data" ++ ".jsonl")) none none) :=
  resolvers_agree_amended "data" "n.txt" "json" none (by decide) (by decide)
    (by decide) rfl

/-- Claim C8: in every ingestion request queued by cmd_ingest_local or
cmd_ingest_blob, the ignore_first_record flag of the ingestion properties
is true exactly when the resolved data format is CSV (and hence false when
it is JSON). -/
theorem ignore_first_record_iff_csv (iu fp db bu q1 q2 : String) (fe : Bool)
    (f? m? : Option String) (props props2 : IngestionProperties) :
    (IngestAction.queuedFile q1 props
        ∈ (cmd_ingest_local iu fp fe db f? m?).actions
      → (props.ignore_first_record = true
          ↔ props.data_format = DataFormat.CSV))
      ∧ (IngestAction.queuedBlob q2 props2
          ∈ (cmd_ingest_blob iu bu db f? m?).actions
        → (props2.ignore_first_record = true
            ↔ props2.data_format = DataFormat.CSV)) := by
  constructor
  · intro hmem
    simp only [cmd_ingest_local] at hmem
    split at hmem
    · simp at hmem
    · split at hmem
      · simp at hmem
      · split at hmem
        · simp at hmem
        · simp only [List.mem_cons, List.mem_singleton] at hmem
          rcases hmem with hmem | hmem | hmem
          · exact absurd hmem (by simp)
          · have hp := (IngestAction.queuedFile.injEq _ _ _ _).mp hmem
            rw [hp.2]
            rename_i df mp heq
            cases df
            · exact ⟨fun _ => rfl, fun _ => rfl⟩
            · exact ⟨fun h => Bool.noConfusion h,
                fun h => DataFormat.noConfusion h⟩
          · simp at hmem
  · intro hmem
    simp only [cmd_ingest_blob] at hmem
    split at hmem
    · simp at hmem
    · split at hmem
      · simp at hmem
      · split at hmem
        · simp at hmem
        · simp only [List.mem_cons, List.mem_singleton] at hmem
          rcases hmem with hmem | hmem | hmem
          · exact absurd hmem (by simp)
          · have hp := (IngestAction.queuedBlob.injEq _ _ _ _).mp hmem
            rw [hp.2]
            rename_i df mp heq
            cases df
            · exact ⟨fun _ => rfl, fun _ => rfl⟩
            · exact ⟨fun h => Bool.noConfusion h,
                fun h => DataFormat.noConfusion h⟩
          · simp at hmem

/-- Witness for C8: one queued CSV file and one queued JSON blob. -/
theorem ignore_first_record_iff_csv_witness :
    ((⟨"db", "FileTransferEvents_Raw", DataFormat.CSV,
        "FileTransferEvents_CsvMapping", true⟩ :
        IngestionProperties).ignore_first_record = true
      ↔ (⟨"db", "FileTransferEvents_Raw", DataFormat.CSV,
          "FileTransferEvents_CsvMapping", true⟩ :
          IngestionProperties).data_format = DataFormat.CSV)
      ∧ ((⟨"db", "FileTransferEvents_Raw", DataFormat.JSON,
          "FileTransferEvents_JsonMapping", false⟩ :
          IngestionProperties).ignore_first_record = true
        ↔ (⟨"db", "FileTransferEvents_Raw", DataFormat.JSON,
            "FileTransferEvents_JsonMapping", false⟩ :
            IngestionProperties).data_format = DataFormat.CSV) :=
  ⟨(ignore_first_record_iff_csv "https://i" "e.csv" "db" "https://b/x.json"
      "e.csv" "https://b/x.json" true none none
      ⟨"db", "FileTransferEvents_Raw", DataFormat.CSV,
        "FileTransferEvents_CsvMapping", true⟩
      ⟨"db", "FileTransferEvents_Raw", DataFormat.JSON,
        "FileTransferEvents_JsonMapping", false⟩).1 (by decide),
   (ignore_first_record_iff_csv "https://i" "e.csv" "db" "https://b/x.json"
      "e.csv" "https://b/x.json" true none none
      ⟨"db", "FileTransferEvents_Raw", DataFormat.CSV,
        "FileTransferEvents_CsvMapping", true⟩
      ⟨"db", "FileTransferEvents_Raw", DataFormat.JSON,
        "FileTransferEvents_JsonMapping", false⟩).2 (by decide)⟩

/-- A returned record in cmd_verify: a mapping from a column name to the
value shown for it, where none models a Python None value. -/
def VRow : Type := String → Option String

/-- Python format specifier col with right alignment in width 20. -/
def rjust20 (s : String) : String :=
  if s.length < 20 then String.mk (List.replicate (20 - s.length) ' ') ++ s
  else s

/-- Python str() of a possibly-None cell value. -/
def pyStr : Option String → String
  | none => "None"
  | some s => s

/-- One fold step of the status_counts dictionary: increment the count of
the status if present, otherwise append it (Python dicts preserve insertion
order). -/
def bumpStatus (acc : List (String × Nat)) (s : String) : List (String × Nat) :=
  if acc.any (fun p => p.1 == s) then
    acc.map (fun p => if p.1 == s then (p.1, p.2 + 1) else p)
  else acc ++ [(s, 1)]

/-- Python repr of the status_counts dictionary. -/
def pyDictRepr (l : List (String × Nat)) : String :=
  "\x7b" ++ String.intercalate ", "
      (l.map (fun p => "\x27" ++ p.1 ++ "\x27: " ++ toString p.2))
    ++ "\x7d"

/-- Observable outcome of cmd_verify after the query succeeded: the lines
printed, and the exception raised, if any (cmd_verify itself raises none
after a successful query). -/
structure VerifyResult : Type where
  output : List String
  error : Option PyError

/-- Exit code of the top-level dispatcher for a verify run: 0 when the
handler returns, 1 when it raises. -/
def verifyExitCode (r : VerifyResult) : Nat :=
  match r.error with
  | none => 0
  | some _ => 1

/-- cmd_verify(args) after the query returned the given columns and rows:
on no rows it prints the no-rows message with the latency suggestion and
returns; otherwise it prints the tabular report, the null-Timestamp check
and the status distribution. -/
def cmd_verify (database : String) (columns : List String)
    (rows : List VRow) : VerifyResult :=
  let pre := ["Verifying data in " ++ database ++ ".FileTransferEvents...", ""]
  if rows.isEmpty then
    ⟨pre ++ ["  No rows found in FileTransferEvents.",
             "  If you recently ingested data, wait 1-3 minutes and try again."],
     none⟩
  else
    let header := String.intercalate " | " (columns.map rjust20)
    let rowLines := rows.map (fun row =>
      "  " ++ String.intercalate " | "
        (columns.map (fun c => rjust20 (pyStr (row c)))))
    let null_timestamps := rows.countP (fun row => (row "Timestamp").isNone)
    let tsLine := if null_timestamps > 0 then
        "  WARNING: " ++ toString null_timestamps
          ++ " row(s) have null Timestamp!"
      else "  All rows have non-null Timestamp. Schema verification PASSED."
    let status_counts := rows.foldl
      (fun acc row => bumpStatus acc (pyStr (row "Status"))) []
    ⟨pre ++ ["  Found " ++ toString rows.length
          ++ " recent rows (showing up to 20):", "",
        "  " ++ header,
        "  " ++ String.mk (List.replicate header.length '-')]
      ++ rowLines
      ++ ["", tsLine, "  Status distribution: " ++ pyDictRepr status_counts],
     none⟩

/-- Claim C9: on an empty result set cmd_verify prints the no-rows message
together with the ingestion-latency suggestion and returns normally with
exit code 0, skipping the tabular report and both sanity checks. -/
theorem verify_empty_ok (database : String) (columns : List String) :
    cmd_verify database columns []
        = ⟨["Verifying data in " ++ database ++ ".FileTransferEvents...", "",
            "  No rows found in FileTransferEvents.",
            "  If you recently ingested data, wait 1-3 minutes and try again."],
           none⟩
      ∧ verifyExitCode (cmd_verify database columns []) = 0 := by
  constructor
  · rfl
  · rfl
